import Mathlib

/-!
A verification development for the Bedrock demo repository's optimization and
dispatch pipeline (`src/bedrock_app` and `src/main.py`).

The Python sources are shallowly embedded as Lean definitions:

* pure string/list manipulation is translated directly;
* network calls (Bedrock invocations, embedding requests) are modelled as
  oracle arguments supplying the collaborator's answer, exactly as the
  specification treats them (external collaborators described by interface);
* Python generators are modelled as the finite list of values they yield;
* float arithmetic on similarity scores is modelled exactly: a score is kept
  as the pair (dot product, squared norm product) whose real value is
  `num / Real.sqrt den2`, compared by an executable cross-multiplication
  comparator proved equivalent to the real order;
* mutation (message-history append, cache insertion) is explicit state
  passing; `list.sort(key=..., reverse=True)` (a stable sort) is modelled by
  `List.mergeSort`, which the standard library proves stable, so both produce
  the unique stable descending arrangement.

Components of the repository imported by the orchestrator but absent from the
source tree (`prompt_cache.py`, `context_memory.py`, `vector_store_manager.py`)
are modelled from the specification; their definitions say so in their doc
comments.
-/

/-- Python's `needle in haystack` substring test on strings: the needle's
character list occurs contiguously inside the haystack's character list. -/
def containsSub (haystack needle : String) : Bool :=
  (haystack.toList.tails).any (fun t => needle.toList.isPrefixOf t)

/-- Python's `str.split()` with no argument: split on runs of whitespace,
discarding empty pieces (hence also leading/trailing whitespace). -/
def pysplit (s : String) : List String :=
  ((s.toList.splitOnP (fun c => c.isWhitespace)).map (fun l => String.mk l)).filter
    (fun t => t ≠ "")

/-- Python's `str.lower()`, character by character (the question keywords and
model identifiers the sources lowercase are ASCII, where `Char.toLower`
agrees with Python). -/
def pyLower (s : String) : String :=
  String.mk (s.toList.map Char.toLower)

/-- The four fixed keyword sets of `OptimizedRAG._extract_tags`
(`src/bedrock_app/optimized_rag.py`, lines 219-224), in the fixed
(insertion-order) enumeration of the Python dict. -/
def keyword_categories : List (String × List String) :=
  [("implementation", ["how", "build", "create", "develop"]),
   ("explanation", ["what", "explain", "describe", "why"]),
   ("troubleshooting", ["error", "bug", "fix", "issue", "problem"]),
   ("design", ["architecture", "design", "pattern", "structure"])]

/-- Does the (already lowercased) question match a category's keyword set,
by case-insensitive substring test (`any(word in question_lower ...)`)? -/
def categoryMatches (question_lower : String) (cat : String × List String) : Bool :=
  cat.2.any (fun w => containsSub question_lower w)

/-- `OptimizedRAG._extract_tags` (`src/bedrock_app/optimized_rag.py`,
lines 216-231): lowercase the question, loop over the four categories in
order appending each matching category name, return the first three. -/
def extract_tags (question : String) : List String :=
  (keyword_categories.foldl
    (fun tags cat => if categoryMatches (pyLower question) cat then tags ++ [cat.1] else tags)
    []).take 3

theorem extract_tags_foldl_eq_filter (ql : String) (cats : List (String × List String))
    (acc : List String) :
    cats.foldl (fun tags cat => if categoryMatches ql cat then tags ++ [cat.1] else tags) acc
      = acc ++ (cats.filter (categoryMatches ql)).map Prod.fst := by
  induction cats generalizing acc with
  | nil => simp
  | cons c cs ih =>
    by_cases h : categoryMatches ql c
    · simp [List.foldl_cons, h, ih, List.filter_cons]
    · simp [List.foldl_cons, h, ih, List.filter_cons]

/-- C7: tag derivation performs a case-insensitive substring match of the
question against the four fixed keyword sets, tested in their fixed order,
returning the first at most three matching category names in that order;
in particular `extract_tags "How do I fix this error?"` contains both
`"implementation"` and `"troubleshooting"`, and every result has length at
most three. -/
theorem c7_extract_tags_spec :
    (∀ question : String,
        extract_tags question
          = ((keyword_categories.filter (categoryMatches (pyLower question))).map Prod.fst).take 3)
    ∧ (∀ question : String, (extract_tags question).length ≤ 3)
    ∧ "implementation" ∈ extract_tags "How do I fix this error?"
    ∧ "troubleshooting" ∈ extract_tags "How do I fix this error?"
    ∧ (extract_tags "How do I fix this error?").length ≤ 3 := by
  have hmain : ∀ question : String,
      extract_tags question
        = ((keyword_categories.filter (categoryMatches (pyLower question))).map Prod.fst).take 3 := by
    intro question
    unfold extract_tags
    rw [extract_tags_foldl_eq_filter]
    simp
  refine ⟨hmain, ?_, ?_, ?_, ?_⟩
  · intro question
    rw [hmain]
    exact (List.length_take _ _).trans_le (min_le_left _ _)
  · decide
  · decide
  · decide

/-!
## Cosine similarity and local semantic search

`cosine_similarity` (`src/bedrock_app/embedding.py` lines 22-25 and
`src/main.py` lines 152-155) computes `dot(v1,v2) / (‖v1‖·‖v2‖)` with no
guard on the denominator.  A similarity value is represented exactly by the
pair `(num, den2)` with `num` the dot product and `den2 = ‖v1‖²·‖v2‖²` the
square of the denominator; the real number the float computation
approximates is `num / Real.sqrt den2`.  When `den2 = 0` (a zero-norm side)
the float division is `0/0 = NaN`, because a zero-norm vector is the zero
vector and forces a zero dot product (`dotp_eq_zero_left/right` below).
-/

/-- Score of one cosine-similarity comparison: dot product and squared
denominator. -/
structure Score where
  num : ℚ
  den2 : ℚ
deriving DecidableEq

/-- The float computation `num / (‖v1‖·‖v2‖)` divides by zero (producing NaN,
since the numerator is forced to zero as well) exactly when `den2 = 0`. -/
def Score.isNaN (s : Score) : Bool :=
  s.den2 == 0

/-- Normalized numerator: the real value of a score with `den2 ≤ 0` junk is
taken as `0` (such scores only arise from zero-norm comparisons, where the
dot product is `0` anyway). -/
def Score.nn (s : Score) : ℚ :=
  if s.den2 ≤ 0 then 0 else s.num

/-- Normalized squared denominator, positive by construction. -/
def Score.dd (s : Score) : ℚ :=
  if s.den2 ≤ 0 then 1 else s.den2

theorem Score.dd_pos (s : Score) : 0 < s.dd := by
  unfold Score.dd
  split
  · norm_num
  · linarith [not_le.mp (by assumption : ¬ s.den2 ≤ 0)]

/-- The exact real value of a score: `num / √den2` (with the normalization
of `Score.nn`/`Score.dd` on degenerate scores). -/
noncomputable def Score.val (s : Score) : ℝ :=
  (s.nn : ℝ) / Real.sqrt (s.dd : ℝ)

theorem Score.val_of_den2_pos {s : Score} (h : 0 < s.den2) :
    s.val = (s.num : ℝ) / Real.sqrt (s.den2 : ℝ) := by
  unfold Score.val Score.nn Score.dd
  rw [if_neg (not_le.mpr h), if_neg (not_le.mpr h)]

/-- Executable comparison of two scores, by sign analysis and
cross-multiplication of squares; `Score.leb_iff` proves it decides exactly
the order of the real values `Score.val`.  This is the comparison the float
`sort` key performs. -/
def Score.leb (a b : Score) : Bool :=
  if a.nn < 0 then
    if 0 ≤ b.nn then true
    else decide (b.nn ^ 2 * a.dd ≤ a.nn ^ 2 * b.dd)
  else
    if b.nn < 0 then false
    else decide (a.nn ^ 2 * b.dd ≤ b.nn ^ 2 * a.dd)

theorem cross_mul_le_iff {x y na nb : ℝ} (hx : 0 < x) (hy : 0 < y)
    (h1 : 0 ≤ na) (h2 : 0 ≤ nb) :
    na * y ≤ nb * x ↔ na ^ 2 * (y * y) ≤ nb ^ 2 * (x * x) := by
  constructor
  · intro h
    have h' := mul_self_le_mul_self (mul_nonneg h1 hy.le) h
    nlinarith [h']
  · intro h
    have h' : (na * y) * (na * y) ≤ (nb * x) * (nb * x) := by nlinarith
    exact nonneg_le_nonneg_of_sq_le_sq (mul_nonneg h2 hx.le) h'

theorem Score.leb_iff (a b : Score) : a.leb b = true ↔ a.val ≤ b.val := by
  have hda : (0 : ℝ) < ((a.dd : ℚ) : ℝ) := by exact_mod_cast a.dd_pos
  have hdb : (0 : ℝ) < ((b.dd : ℚ) : ℝ) := by exact_mod_cast b.dd_pos
  have hx0 : 0 < Real.sqrt ((a.dd : ℚ) : ℝ) := Real.sqrt_pos.mpr hda
  have hy0 : 0 < Real.sqrt ((b.dd : ℚ) : ℝ) := Real.sqrt_pos.mpr hdb
  have hx2 : Real.sqrt ((a.dd : ℚ) : ℝ) * Real.sqrt ((a.dd : ℚ) : ℝ) = ((a.dd : ℚ) : ℝ) :=
    Real.mul_self_sqrt hda.le
  have hy2 : Real.sqrt ((b.dd : ℚ) : ℝ) * Real.sqrt ((b.dd : ℚ) : ℝ) = ((b.dd : ℚ) : ℝ) :=
    Real.mul_self_sqrt hdb.le
  unfold Score.leb Score.val
  rw [div_le_div_iff₀ hx0 hy0]
  by_cases hna : a.nn < 0
  · by_cases hnb : (0 : ℚ) ≤ b.nn
    · simp only [if_pos hna, if_pos hnb, true_iff]
      have h1 : ((a.nn : ℚ) : ℝ) ≤ 0 := by exact_mod_cast hna.le
      have h2 : (0 : ℝ) ≤ ((b.nn : ℚ) : ℝ) := by exact_mod_cast hnb
      calc ((a.nn : ℚ) : ℝ) * Real.sqrt ((b.dd : ℚ) : ℝ)
          ≤ 0 := mul_nonpos_of_nonpos_of_nonneg h1 hy0.le
        _ ≤ ((b.nn : ℚ) : ℝ) * Real.sqrt ((a.dd : ℚ) : ℝ) := mul_nonneg h2 hx0.le
    · simp only [if_pos hna, if_neg hnb, decide_eq_true_eq]
      have h1 : ((a.nn : ℚ) : ℝ) < 0 := by exact_mod_cast hna
      have h2 : ((b.nn : ℚ) : ℝ) < 0 := by exact_mod_cast not_le.mp hnb
      have key := @cross_mul_le_iff (Real.sqrt ((b.dd : ℚ) : ℝ))
        (Real.sqrt ((a.dd : ℚ) : ℝ)) (-((b.nn : ℚ) : ℝ))
        (-((a.nn : ℚ) : ℝ)) hy0 hx0 (by linarith) (by linarith)
      rw [hx2, hy2, neg_sq, neg_sq] at key
      constructor
      · intro h
        have hq : ((b.nn ^ 2 * a.dd : ℚ) : ℝ) ≤ ((a.nn ^ 2 * b.dd : ℚ) : ℝ) := by
          exact_mod_cast h
        push_cast at hq
        have := key.mpr hq
        linarith
      · intro h
        have hr := key.mp (by linarith)
        have hq : ((b.nn ^ 2 * a.dd : ℚ) : ℝ) ≤ ((a.nn ^ 2 * b.dd : ℚ) : ℝ) := by
          push_cast
          linarith
        exact_mod_cast hq
  · by_cases hnb : b.nn < 0
    · rw [if_neg hna, if_pos hnb]
      have h1 : (0 : ℝ) ≤ ((a.nn : ℚ) : ℝ) := by exact_mod_cast not_lt.mp hna
      have h2 : ((b.nn : ℚ) : ℝ) < 0 := by exact_mod_cast hnb
      refine iff_of_false (by simp) (not_le.mpr ?_)
      calc ((b.nn : ℚ) : ℝ) * Real.sqrt ((a.dd : ℚ) : ℝ)
          < 0 := mul_neg_of_neg_of_pos h2 hx0
        _ ≤ ((a.nn : ℚ) : ℝ) * Real.sqrt ((b.dd : ℚ) : ℝ) := mul_nonneg h1 hy0.le
    · simp only [if_neg hna, if_neg hnb, decide_eq_true_eq]
      have h1 : (0 : ℝ) ≤ ((a.nn : ℚ) : ℝ) := by exact_mod_cast not_lt.mp hna
      have h2 : (0 : ℝ) ≤ ((b.nn : ℚ) : ℝ) := by exact_mod_cast not_lt.mp hnb
      have key := @cross_mul_le_iff (Real.sqrt ((a.dd : ℚ) : ℝ))
        (Real.sqrt ((b.dd : ℚ) : ℝ)) (((a.nn : ℚ) : ℝ))
        (((b.nn : ℚ) : ℝ)) hx0 hy0 h1 h2
      rw [hx2, hy2] at key
      constructor
      · intro h
        have hq : ((a.nn ^ 2 * b.dd : ℚ) : ℝ) ≤ ((b.nn ^ 2 * a.dd : ℚ) : ℝ) := by
          exact_mod_cast h
        push_cast at hq
        exact key.mpr (by nlinarith)
      · intro h
        have hr := key.mp h
        have hq : ((a.nn ^ 2 * b.dd : ℚ) : ℝ) ≤ ((b.nn ^ 2 * a.dd : ℚ) : ℝ) := by
          push_cast
          nlinarith [hr]
        exact_mod_cast hq

theorem Score.leb_total (a b : Score) : a.leb b || b.leb a := by
  rcases le_total a.val b.val with h | h
  · simp [(Score.leb_iff a b).mpr h]
  · simp [(Score.leb_iff b a).mpr h]

theorem Score.leb_trans {a b c : Score} (h1 : a.leb b) (h2 : b.leb c) : a.leb c :=
  (Score.leb_iff a c).mpr (((Score.leb_iff a b).mp h1).trans ((Score.leb_iff b c).mp h2))

/-- Score equality as the float comparison would decide it (equal real
values). -/
def Score.eqb (a b : Score) : Bool :=
  a.leb b && b.leb a

/-- `np.dot(v1, v2)` on equal-length vectors (`zipWith` mirrors numpy's
elementwise pairing). -/
def dotp (v w : List ℚ) : ℚ :=
  (List.zipWith (fun a b => a * b) v w).sum

/-- `np.linalg.norm(v) ** 2`: the squared Euclidean norm. -/
def normSq (v : List ℚ) : ℚ :=
  dotp v v

/-- `cosine_similarity(vec1, vec2)` (`src/main.py` lines 152-155,
`src/bedrock_app/embedding.py` lines 22-25): `dot / (norm * norm)`, kept as
the exact pair (dot product, squared denominator); no zero-denominator
guard exists in the source. -/
def cosine_similarity (vec1 vec2 : List ℚ) : Score :=
  ⟨dotp vec1 vec2, normSq vec1 * normSq vec2⟩

theorem normSq_cons (x : ℚ) (v : List ℚ) : normSq (x :: v) = x * x + normSq v := by
  simp [normSq, dotp]

theorem normSq_nonneg (v : List ℚ) : 0 ≤ normSq v := by
  induction v with
  | nil => simp [normSq, dotp]
  | cons x v ih => rw [normSq_cons]; nlinarith [mul_self_nonneg x]

theorem mem_eq_zero_of_normSq_eq_zero {v : List ℚ} (h : normSq v = 0) :
    ∀ x ∈ v, x = 0 := by
  induction v with
  | nil => simp
  | cons x v ih =>
    rw [normSq_cons] at h
    have hx : x * x = 0 := by nlinarith [mul_self_nonneg x, normSq_nonneg v]
    have hv : normSq v = 0 := by nlinarith [mul_self_nonneg x, normSq_nonneg v]
    intro y hy
    rcases List.mem_cons.mp hy with rfl | hy
    · exact mul_self_eq_zero.mp hx
    · exact ih hv y hy

theorem dotp_eq_zero_left {v : List ℚ} (h : ∀ x ∈ v, x = 0) (w : List ℚ) :
    dotp v w = 0 := by
  induction v generalizing w with
  | nil => simp [dotp]
  | cons x v ih =>
    cases w with
    | nil => simp [dotp]
    | cons y w =>
      have hx : x = 0 := h x (List.mem_cons_self x v)
      have : dotp v w = 0 := ih (fun z hz => h z (List.mem_cons_of_mem x hz)) w
      simp [dotp] at this ⊢
      simp [hx, this]

theorem dotp_eq_zero_right (v : List ℚ) {w : List ℚ} (h : ∀ y ∈ w, y = 0) :
    dotp v w = 0 := by
  induction v generalizing w with
  | nil => simp [dotp]
  | cons x v ih =>
    cases w with
    | nil => simp [dotp]
    | cons y w =>
      have hy : y = 0 := h y (List.mem_cons_self y w)
      have : dotp v w = 0 := ih (fun z hz => h z (List.mem_cons_of_mem y hz))
      simp [dotp] at this ⊢
      simp [hy, this]

/-- A zero-norm left vector forces the whole score to the undefined `0/0`. -/
theorem cosine_similarity_zero_left {v : List ℚ} (h : normSq v = 0) (w : List ℚ) :
    cosine_similarity v w = ⟨0, 0⟩ := by
  unfold cosine_similarity
  rw [dotp_eq_zero_left (mem_eq_zero_of_normSq_eq_zero h) w, h, zero_mul]

/-- A zero-norm right vector forces the whole score to the undefined `0/0`. -/
theorem cosine_similarity_zero_right (v : List ℚ) {w : List ℚ} (h : normSq w = 0) :
    cosine_similarity v w = ⟨0, 0⟩ := by
  unfold cosine_similarity
  rw [dotp_eq_zero_right v (mem_eq_zero_of_normSq_eq_zero h), h, mul_zero]

/-- One record of the in-memory vector store built by
`build_vector_store_from_folder` (`src/main.py` lines 193-207):
`{"filename": ..., "content": ..., "embedding": ...}`. -/
structure StoreEntry where
  filename : String
  content : String
  embedding : List ℚ
deriving DecidableEq

/-- The comparison performed by `scored.sort(key=lambda x: x[1], reverse=True)`:
entry `a` may precede entry `b` exactly when `b`'s score is at most `a`'s. -/
def searchCmp (a b : String × Score × String) : Bool :=
  Score.leb b.2.1 a.2.1

/-- The `scored` list of `semantic_search_local`: every store entry scored
against the query embedding, in store order. -/
def scoredList (query_embedding : List ℚ) (store : List StoreEntry) :
    List (String × Score × String) :=
  store.map (fun e => (e.filename, cosine_similarity query_embedding e.embedding, e.content))

/-- `semantic_search_local` (`src/main.py` lines 209-219).  The query
embedding argument is the result of the external `embed_with_bedrock` call
(an empty list models both an embedding failure and an empty vector, which
Python treats as falsy and answers `[]`).  Every store entry is scored —
there is no exclusion of any record — then the list is stably sorted
descending by score and truncated to `top_k`. -/
def semantic_search_local (query_embedding : List ℚ) (store : List StoreEntry)
    (top_k : Nat) : List (String × Score × String) :=
  if query_embedding.isEmpty then []
  else ((scoredList query_embedding store).mergeSort searchCmp).take top_k

theorem searchCmp_trans (a b c : String × Score × String)
    (h1 : searchCmp a b) (h2 : searchCmp b c) : searchCmp a c :=
  Score.leb_trans h2 h1

theorem searchCmp_total (a b : String × Score × String) :
    searchCmp a b || searchCmp b a :=
  Score.leb_total b.2.1 a.2.1

/-- C3 counterexample: with a store holding one record whose stored vector is
zero-norm (`[0]`) and a non-degenerate query embedding `[1]`, the record is
NOT excluded — `semantic_search_local` returns it, carrying the undefined
`0/0` score (NaN in the float implementation).  This refutes the claim that
a zero-norm comparison excludes the record and that no NaN score appears in
results. -/
theorem c3_counterexample :
    semantic_search_local [1] [⟨"a.txt", "x", [0]⟩] 3 = [("a.txt", ⟨0, 0⟩, "x")]
    ∧ Score.isNaN ⟨0, 0⟩ = true
    ∧ normSq [0] = 0 := by
  refine ⟨?_, by decide, by norm_num [normSq, dotp]⟩
  show (if (List.isEmpty [1] : Bool) then ([] : List (String × Score × String))
      else ((scoredList [1] [⟨"a.txt", "x", [0]⟩]).mergeSort searchCmp).take 3)
    = [("a.txt", ⟨0, 0⟩, "x")]
  have h : scoredList [1] [⟨"a.txt", "x", [0]⟩] = [("a.txt", ⟨0, 0⟩, "x")] := by
    simp only [scoredList, cosine_similarity, List.map_cons, List.map_nil]
    norm_num [dotp, normSq]
  rw [h]
  simp

/-- C3 (amended): no record is ever excluded from the search: every stored
record is scored (a zero-norm side producing the undefined `0/0` score, which
the float code computes as NaN) and the result is exactly the first `top_k`
of the stably-sorted scored list, so a zero-norm record still appears in the
results (whenever the truncation keeps the whole store), NaN score included.
Only an empty query embedding (Python falsy) short-circuits to `[]`. -/
theorem c3_zero_norm_not_excluded (q : List ℚ) (store : List StoreEntry) (k : Nat)
    (hq : q ≠ []) :
    (semantic_search_local q store k).length = min k store.length
    ∧ (∀ v w : List ℚ, normSq v = 0 ∨ normSq w = 0 →
        cosine_similarity v w = ⟨0, 0⟩ ∧ Score.isNaN (cosine_similarity v w) = true)
    ∧ (∀ e ∈ store, normSq e.embedding = 0 → store.length ≤ k →
        ∃ r ∈ semantic_search_local q store k, r.1 = e.filename ∧ r.2.1.isNaN = true) := by
  have hne : q.isEmpty = false := by
    cases q with
    | nil => exact absurd rfl hq
    | cons a as => rfl
  have hres : semantic_search_local q store k
      = ((scoredList q store).mergeSort searchCmp).take k := by
    simp [semantic_search_local, hne]
  refine ⟨?_, ?_, ?_⟩
  · rw [hres, List.length_take, List.length_mergeSort]
    simp [scoredList]
  · intro v w hvw
    have hz : cosine_similarity v w = ⟨0, 0⟩ := by
      rcases hvw with h | h
      · exact cosine_similarity_zero_left h w
      · exact cosine_similarity_zero_right v h
    exact ⟨hz, by rw [hz]; decide⟩
  · intro e he hz hk
    have hmem : (e.filename, cosine_similarity q e.embedding, e.content)
        ∈ scoredList q store := List.mem_map_of_mem _ he
    have hlen : ((scoredList q store).mergeSort searchCmp).length = store.length := by
      rw [List.length_mergeSort]
      simp [scoredList]
    have htake : ((scoredList q store).mergeSort searchCmp).take k
        = (scoredList q store).mergeSort searchCmp :=
      List.take_of_length_le (by rw [hlen]; exact hk)
    refine ⟨(e.filename, cosine_similarity q e.embedding, e.content), ?_, rfl, ?_⟩
    · rw [hres, htake]
      exact List.mem_mergeSort.mpr hmem
    · rw [cosine_similarity_zero_right q hz]
      simp [Score.isNaN]

/-- C3 witness: the amended statement applied to the concrete one-record
store with a zero vector. -/
theorem c3_zero_norm_not_excluded_witness :
    (([1] : List ℚ) ≠ [])
    ∧ ((semantic_search_local [1] [⟨"a.txt", "x", [0]⟩] 1).length
          = min 1 ([(⟨"a.txt", "x", [0]⟩ : StoreEntry)] : List StoreEntry).length
        ∧ (∀ v w : List ℚ, normSq v = 0 ∨ normSq w = 0 →
            cosine_similarity v w = ⟨0, 0⟩ ∧ Score.isNaN (cosine_similarity v w) = true)
        ∧ (∀ e ∈ ([(⟨"a.txt", "x", [0]⟩ : StoreEntry)] : List StoreEntry),
            normSq e.embedding = 0 →
            ([(⟨"a.txt", "x", [0]⟩ : StoreEntry)] : List StoreEntry).length ≤ 1 →
            ∃ r ∈ semantic_search_local [1] [⟨"a.txt", "x", [0]⟩] 1,
              r.1 = e.filename ∧ r.2.1.isNaN = true)) :=
  ⟨by decide, c3_zero_norm_not_excluded [1] [⟨"a.txt", "x", [0]⟩] 1 (by decide)⟩

/-- C4: for a non-degenerate query and store (all embeddings non-zero-norm)
and `top_k ≤ |store|`, the search returns at most `top_k` results, with
similarity scores (real value `num / √den2`) in non-increasing order, and —
stability of the sort — for every score class, the results carrying that
score form a prefix of the store-order (insertion-order) list of scored
records with that score, so equal-scored results appear in insertion order. -/
theorem c4_search_sorted_stable (q : List ℚ) (store : List StoreEntry) (k : Nat)
    (hq : q ≠ []) (hk : k ≤ store.length)
    (hqn : normSq q ≠ 0) (hsn : ∀ e ∈ store, normSq e.embedding ≠ 0) :
    (semantic_search_local q store k).length ≤ k
    ∧ (semantic_search_local q store k).Pairwise
        (fun a b => Score.val b.2.1 ≤ Score.val a.2.1)
    ∧ (∀ r ∈ semantic_search_local q store k,
        Score.val r.2.1 = (r.2.1.num : ℝ) / Real.sqrt (r.2.1.den2 : ℝ))
    ∧ (∀ s : Score, ∃ t,
        (semantic_search_local q store k).filter (fun r => Score.eqb r.2.1 s) ++ t
          = (scoredList q store).filter (fun r => Score.eqb r.2.1 s)) := by
  have hne : q.isEmpty = false := by
    cases q with
    | nil => exact absurd rfl hq
    | cons a as => rfl
  have hres : semantic_search_local q store k
      = ((scoredList q store).mergeSort searchCmp).take k := by
    simp [semantic_search_local, hne]
  have hsorted : ((scoredList q store).mergeSort searchCmp).Pairwise
      (fun a b => searchCmp a b = true) :=
    List.sorted_mergeSort searchCmp_trans searchCmp_total (scoredList q store)
  refine ⟨?_, ?_, ?_, ?_⟩
  · rw [hres]
    exact (List.length_take _ _).trans_le (min_le_left _ _)
  · rw [hres]
    exact ((hsorted.sublist (List.take_sublist _ _)).imp
      (fun h => (Score.leb_iff _ _).mp h))
  · intro r hr
    rw [hres] at hr
    have hr2 : r ∈ scoredList q store :=
      List.mem_mergeSort.mp (List.mem_of_mem_take hr)
    obtain ⟨e, he, rfl⟩ := List.mem_map.mp hr2
    have hd : (0 : ℚ) < normSq q * normSq e.embedding :=
      mul_pos (lt_of_le_of_ne (normSq_nonneg q) (Ne.symm hqn))
        (lt_of_le_of_ne (normSq_nonneg e.embedding) (Ne.symm (hsn e he)))
    exact Score.val_of_den2_pos hd
  · intro s
    set p : (String × Score × String) → Bool := fun r => Score.eqb r.2.1 s with hp
    have hcsub : List.Sublist ((scoredList q store).filter p) (scoredList q store) :=
      List.filter_sublist _
    have hcpair : ((scoredList q store).filter p).Pairwise (fun a b => searchCmp a b = true) := by
      apply List.pairwise_of_forall_mem_list
      intro a ha b hb
      have hpa : p a = true := List.of_mem_filter ha
      have hpb : p b = true := List.of_mem_filter hb
      rw [hp] at hpa hpb
      simp only [Score.eqb, Bool.and_eq_true] at hpa hpb
      exact Score.leb_trans hpb.1 hpa.2
    have hstep : List.Sublist ((scoredList q store).filter p)
        ((scoredList q store).mergeSort searchCmp) :=
      List.sublist_mergeSort searchCmp_trans searchCmp_total hcpair hcsub
    have hfilself : ((scoredList q store).filter p).filter p = (scoredList q store).filter p :=
      List.filter_eq_self.mpr (fun a ha => List.of_mem_filter ha)
    have h2 : List.Sublist ((scoredList q store).filter p)
        (((scoredList q store).mergeSort searchCmp).filter p) := by
      have := hstep.filter p
      rwa [hfilself] at this
    have hperm : List.Perm (((scoredList q store).mergeSort searchCmp).filter p)
        ((scoredList q store).filter p) :=
      (List.mergeSort_perm (scoredList q store) searchCmp).filter p
    have heq : (scoredList q store).filter p
        = ((scoredList q store).mergeSort searchCmp).filter p :=
      h2.eq_of_length hperm.length_eq.symm
    refine ⟨(((scoredList q store).mergeSort searchCmp).drop k).filter p, ?_⟩
    rw [hres, ← List.filter_append, List.take_append_drop]
    exact heq.symm

/-- C4 witness: the sortedness/stability statement applied to a concrete
one-record store with non-zero vectors and `top_k = 1`. -/
theorem c4_search_sorted_stable_witness :
    (([1] : List ℚ) ≠ []
      ∧ 1 ≤ ([(⟨"a.txt", "x", [1]⟩ : StoreEntry)] : List StoreEntry).length
      ∧ normSq [1] ≠ 0
      ∧ ∀ e ∈ ([(⟨"a.txt", "x", [1]⟩ : StoreEntry)] : List StoreEntry),
          normSq e.embedding ≠ 0)
    ∧ ((semantic_search_local [1] [⟨"a.txt", "x", [1]⟩] 1).length ≤ 1
      ∧ (semantic_search_local [1] [⟨"a.txt", "x", [1]⟩] 1).Pairwise
          (fun a b => Score.val b.2.1 ≤ Score.val a.2.1)
      ∧ (∀ r ∈ semantic_search_local [1] [⟨"a.txt", "x", [1]⟩] 1,
          Score.val r.2.1 = (r.2.1.num : ℝ) / Real.sqrt (r.2.1.den2 : ℝ))
      ∧ (∀ s : Score, ∃ t,
          (semantic_search_local [1] [⟨"a.txt", "x", [1]⟩] 1).filter
              (fun r => Score.eqb r.2.1 s) ++ t
            = (scoredList [1] [⟨"a.txt", "x", [1]⟩]).filter
                (fun r => Score.eqb r.2.1 s))) :=
  ⟨⟨by simp, by simp, by norm_num [normSq, dotp], by norm_num [normSq, dotp]⟩,
    c4_search_sorted_stable [1] [⟨"a.txt", "x", [1]⟩] 1 (by simp) (by simp)
      (by norm_num [normSq, dotp]) (by norm_num [normSq, dotp])⟩

/-!
## Provider adapter: model-family dispatch, streaming decode, blocking decode

`invoke_model_stream` (`src/bedrock_app/chat.py` lines 5-79) iterates framed
events from the provider; each frame optionally holds a `chunk` whose decoded
JSON supplies, per family, an incremental text delta; per the
`character_stream` option the delta is re-emitted verbatim, split into
characters (Claude) or into 10-character pieces (Titan/Llama/Mistral).  The
whole loop sits in a `try` whose handler yields exactly one
`"Error: ..."` fragment: an exception raised while obtaining or decoding
frames abandons the rest of the stream.  A stream run is therefore a list of
items, each either a decoded frame or a raised exception; processing stops at
the first raised item.
-/

/-- Provider family, resolved once from the model identifier (the source
re-matches substrings at each call site; `family_of` is that match).  The
source test `'claude-3' in m or 'claude-3-5' in m` is equivalent to
`'claude-3' in m` since the second pattern contains the first. -/
inductive Family where
  | claude3
  | claudeLegacy
  | titan
  | llamaMistral
  | unsupported
deriving DecidableEq

def family_of (model_id : String) : Family :=
  if containsSub (pyLower model_id) "claude" then
    if containsSub (pyLower model_id) "claude-3" then Family.claude3
    else Family.claudeLegacy
  else if containsSub (pyLower model_id) "titan" then Family.titan
  else if containsSub (pyLower model_id) "llama" || containsSub (pyLower model_id) "mistral" then
    Family.llamaMistral
  else Family.unsupported

/-- An entry of a JSON array whose relevant field is `text`
(`content[i]` for Claude 3, `outputs[i]` for Mistral); `none` models a
missing key. -/
structure OutEntry where
  text : Option String
deriving DecidableEq

/-- An entry of Titan's `results` array; the relevant field is
`outputText`. -/
structure ResultEntry where
  outputText : Option String
deriving DecidableEq

/-- The decoded JSON of one streaming `chunk`: the family-specific fields
the source reads (`delta.text`, `outputText`, `generation`,
`outputs[0].text`); `none` models a missing key. -/
structure ChunkData where
  delta_text : Option String
  output_text : Option String
  generation : Option String
  outputs : Option (List OutEntry)
deriving DecidableEq

/-- One step of the provider's event iterator: either an event (with or
without a `chunk` key) or an exception raised while obtaining/decoding it. -/
inductive StreamItem where
  | frame (chunk : Option ChunkData)
  | raise (msg : String)
deriving DecidableEq

def isRaiseItem : StreamItem → Bool
  | StreamItem.raise _ => true
  | StreamItem.frame _ => false

/-- Concatenation of a list of fragments into one string. -/
def concatS (l : List String) : String :=
  String.mk (l.map String.data).flatten

theorem concatS_nil : concatS [] = "" := rfl

theorem concatS_cons (s : String) (l : List String) :
    concatS (s :: l) = s ++ concatS l := rfl

theorem concatS_append (l1 l2 : List String) :
    concatS (l1 ++ l2) = concatS l1 ++ concatS l2 := by
  induction l1 with
  | nil => rfl
  | cons s t ih =>
    rw [List.cons_append, concatS_cons, concatS_cons, ih, String.append_assoc]

/-- `for char in text: yield char`: character-level re-chunking. -/
def emitChars (t : String) : List String :=
  t.data.map (fun c => String.mk [c])

/-- `for i in range(0, len(text), 10): yield text[i:i+10]`: fixed
10-character re-chunking. -/
def chunksOf10 : List Char → List String
  | [] => []
  | c :: cs => String.mk (c :: cs.take 9) :: chunksOf10 (cs.drop 9)
termination_by l => l.length
decreasing_by simp; omega

def emit10 (t : String) : List String :=
  chunksOf10 t.data

theorem concatS_emitChars (t : String) : concatS (emitChars t) = t := by
  have h : ∀ l : List Char, concatS ((l.map (fun c => String.mk [c]))) = String.mk l := by
    intro l
    induction l with
    | nil => rfl
    | cons c cs ih => rw [List.map_cons, concatS_cons, ih]; rfl
  exact h t.data

theorem concatS_chunksOf10 (l : List Char) : concatS (chunksOf10 l) = String.mk l := by
  induction l using chunksOf10.induct with
  | case1 => rw [chunksOf10]; rfl
  | case2 c cs ih =>
    rw [chunksOf10, concatS_cons, ih]
    show String.mk ((c :: cs.take 9) ++ cs.drop 9) = String.mk (c :: cs)
    rw [List.cons_append, List.take_append_drop]

theorem concatS_emit10 (t : String) : concatS (emit10 t) = t :=
  concatS_chunksOf10 t.data

/-- The fragments one decoded chunk contributes, per family and granularity
(the per-family branches of `invoke_model_stream`). -/
def processChunk (fam : Family) (character_stream : Bool) (cd : ChunkData) : List String :=
  match fam with
  | Family.claude3 | Family.claudeLegacy =>
    match cd.delta_text with
    | some t => if character_stream then emitChars t else [t]
    | none => []
  | Family.titan =>
    match cd.output_text with
    | some t => if character_stream then emit10 t else [t]
    | none => []
  | Family.llamaMistral =>
    match cd.generation with
    | some t => if character_stream then emit10 t else [t]
    | none =>
      match cd.outputs with
      | some (o :: _) =>
        match o.text with
        | some t => if character_stream then emit10 t else [t]
        | none => []
      | _ => []
  | Family.unsupported => []

/-- The streaming loop of `invoke_model_stream` under its `try`: process
items in order; the first raised exception is caught by the handler, which
yields exactly one `"Error: ..."` diagnostic fragment and ends the
generator (items after it are never consumed). -/
def run_stream (fam : Family) (character_stream : Bool) : List StreamItem → List String
  | [] => []
  | StreamItem.raise msg :: _ => ["Error: " ++ msg]
  | StreamItem.frame none :: rest => run_stream fam character_stream rest
  | StreamItem.frame (some cd) :: rest =>
      processChunk fam character_stream cd ++ run_stream fam character_stream rest

/-- `invoke_model_stream(model_id, body, character_stream)`
(`src/bedrock_app/chat.py` lines 5-79), as a function of the provider's
event-stream run. -/
def invoke_model_stream (model_id : String) (items : List StreamItem)
    (character_stream : Bool) : List String :=
  run_stream (family_of model_id) character_stream items

/-- The fields of a non-streaming `response_body` that the decoders read
(`src/bedrock_app/chat.py` lines 131-143); `none` models a missing key. -/
structure ResponseBody where
  content : Option (List OutEntry)
  completion : Option String
  results : Option (List ResultEntry)
  generation : Option String
  outputs : Option (List OutEntry)
deriving DecidableEq

/-- The per-family decode of `chat_with_bedrock`'s non-streaming response:
`content[0]['text']` (Claude 3, raising on a missing path),
`get('completion', 'No response')` (legacy Claude),
`results[0]['outputText']` (Titan, raising on a missing path),
`get('generation', get('outputs', [{}])[0].get('text', 'No response'))`
(Llama/Mistral).  `Except.error` models a raised `KeyError`/`IndexError`.
The `unsupported` branch is unreachable: the caller returns `None` before
invoking. -/
def decode_response (fam : Family) (rb : ResponseBody) : Except String String :=
  match fam with
  | Family.claude3 =>
    match rb.content with
    | none => Except.error "KeyError: content"
    | some [] => Except.error "IndexError: content"
    | some (c :: _) =>
      match c.text with
      | none => Except.error "KeyError: text"
      | some t => Except.ok t
  | Family.claudeLegacy => Except.ok (rb.completion.getD "No response")
  | Family.titan =>
    match rb.results with
    | none => Except.error "KeyError: results"
    | some [] => Except.error "IndexError: results"
    | some (r :: _) =>
      match r.outputText with
      | none => Except.error "KeyError: outputText"
      | some t => Except.ok t
  | Family.llamaMistral =>
    match rb.generation with
    | some g => Except.ok g
    | none =>
      match rb.outputs with
      | none => Except.ok "No response"
      | some [] => Except.error "IndexError: outputs"
      | some (o :: _) => Except.ok (o.text.getD "No response")
  | Family.unsupported => Except.error "unsupported model"

/-- `chat_with_bedrock` (`src/bedrock_app/chat.py` lines 81-147), as a
function of the provider's answer: an unsupported model returns `None`
with no network call; a `ClientError` (`Except.error` oracle) is caught and
returns `None`; otherwise the family decode runs (its raised exceptions,
which the source does not catch, surface as `Except.error`). -/
def chat_with_bedrock (model_id : String) (net : Except String ResponseBody) :
    Except String (Option String) :=
  if family_of model_id = Family.unsupported then Except.ok none
  else
    match net with
    | Except.error _ => Except.ok none
    | Except.ok rb =>
      match decode_response (family_of model_id) rb with
      | Except.error e => Except.error e
      | Except.ok t => Except.ok (some t)

theorem concatS_processChunk (fam : Family) (cs : Bool) (cd : ChunkData) :
    concatS (processChunk fam cs cd) = concatS (processChunk fam false cd) := by
  cases fam <;> cases cs <;>
    simp only [processChunk] <;>
    (try rfl) <;>
    (repeat' (split <;> try rfl)) <;>
    simp [concatS_emitChars, concatS_emit10, concatS_cons, concatS_nil]

theorem run_stream_granularity (fam : Family) (cs : Bool) (items : List StreamItem) :
    concatS (run_stream fam cs items) = concatS (run_stream fam false items) := by
  induction items with
  | nil => rfl
  | cons x rest ih =>
    cases x with
    | raise msg => rfl
    | frame c =>
      cases c with
      | none => simpa [run_stream] using ih
      | some cd =>
        simp only [run_stream, concatS_append, ih, concatS_processChunk]

/-- C5: for every model family and every fixed simulated provider response —
frames whose native deltas concatenate to the text the non-streaming decode
returns — the concatenation of all fragments yielded by the streaming decode
equals the full text produced by the non-streaming decode, for either
`character_stream` granularity; the re-chunking (characters or 10-character
pieces versus provider-native deltas) never alters the concatenated
result. -/
theorem c5_stream_concat_eq_invoke (model_id : String) (frames : List StreamItem)
    (rb : ResponseBody) (T : String)
    (hdec : chat_with_bedrock model_id (Except.ok rb) = Except.ok (some T))
    (hcons : concatS (invoke_model_stream model_id frames false) = T) :
    ∀ cs : Bool,
      concatS (invoke_model_stream model_id frames cs) = T
      ∧ chat_with_bedrock model_id (Except.ok rb)
          = Except.ok (some (concatS (invoke_model_stream model_id frames cs))) := by
  intro cs
  have h : concatS (invoke_model_stream model_id frames cs) = T := by
    unfold invoke_model_stream
    rw [run_stream_granularity]
    exact hcons
  exact ⟨h, by rw [h]; exact hdec⟩

/-- C5 witness: a two-delta Claude-3 stream against the matching
non-streaming body. -/
theorem c5_stream_concat_eq_invoke_witness :
    (chat_with_bedrock "anthropic.claude-3-haiku"
        (Except.ok ⟨some [⟨some "Hello"⟩], none, none, none, none⟩)
        = Except.ok (some "Hello")
      ∧ concatS (invoke_model_stream "anthropic.claude-3-haiku"
          [StreamItem.frame (some ⟨some "He", none, none, none⟩),
           StreamItem.frame (some ⟨some "llo", none, none, none⟩)] false) = "Hello")
    ∧ ∀ cs : Bool,
        concatS (invoke_model_stream "anthropic.claude-3-haiku"
          [StreamItem.frame (some ⟨some "He", none, none, none⟩),
           StreamItem.frame (some ⟨some "llo", none, none, none⟩)] cs) = "Hello"
        ∧ chat_with_bedrock "anthropic.claude-3-haiku"
            (Except.ok ⟨some [⟨some "Hello"⟩], none, none, none, none⟩)
            = Except.ok (some (concatS (invoke_model_stream "anthropic.claude-3-haiku"
                [StreamItem.frame (some ⟨some "He", none, none, none⟩),
                 StreamItem.frame (some ⟨some "llo", none, none, none⟩)] cs))) :=
  ⟨⟨by rfl, by decide⟩,
    c5_stream_concat_eq_invoke "anthropic.claude-3-haiku"
      [StreamItem.frame (some ⟨some "He", none, none, none⟩),
       StreamItem.frame (some ⟨some "llo", none, none, none⟩)]
      ⟨some [⟨some "Hello"⟩], none, none, none, none⟩ "Hello"
      (by rfl) (by decide)⟩

/-- `answer_with_context_stream` (`src/bedrock_app/rag.py` lines 88-137):
an unsupported model yields one "not supported" fragment; otherwise the
fragments are those of `invoke_model_stream` (whose internal handler already
absorbs stream errors, so the outer `except` never fires from it). -/
def answer_with_context_stream (model_id : String) (items : List StreamItem)
    (character_stream : Bool) : List String :=
  if family_of model_id = Family.unsupported then
    ["Model not supported for streaming: " ++ model_id]
  else run_stream (family_of model_id) character_stream items

/-- `OptimizedRAG._invoke_model_with_context_stream`
(`src/bedrock_app/optimized_rag.py` lines 357-421): an unsupported model
yields one "Model not supported." fragment; otherwise it delegates to
`invoke_model_stream` with the default `character_stream=True`. -/
def invoke_model_with_context_stream_frags (model_id : String)
    (items : List StreamItem) : List String :=
  if family_of model_id = Family.unsupported then ["Model not supported."]
  else run_stream (family_of model_id) true items

theorem run_stream_raise (fam : Family) (cs : Bool) (pre post : List StreamItem)
    (msg : String) (hpre : ∀ x ∈ pre, isRaiseItem x = false) :
    run_stream fam cs (pre ++ StreamItem.raise msg :: post)
      = run_stream fam cs pre ++ ["Error: " ++ msg] := by
  induction pre with
  | nil => rfl
  | cons x rest ih =>
    have hrest : ∀ y ∈ rest, isRaiseItem y = false :=
      fun y hy => hpre y (List.mem_cons_of_mem x hy)
    cases x with
    | raise m => exact absurd (hpre _ (List.mem_cons_self _ _)) (by simp [isRaiseItem])
    | frame c =>
      cases c with
      | none => simpa [run_stream] using ih hrest
      | some cd => simp [run_stream, ih hrest]

/-- C9: when the underlying call or frame decoding raises (a `raise` item
after an error-free prefix of frames), the stream yields the fragments of
the processed prefix followed by exactly one diagnostic `"Error: ..."`
fragment and then terminates: nothing after the raise — in particular
nothing of `post` — is ever yielded, no exception escapes, and the same
holds through both streaming wrappers (which add only their "not supported"
single-fragment path). -/
theorem c9_stream_error_single_diagnostic (model_id : String)
    (pre post : List StreamItem) (msg : String) (cs : Bool)
    (hpre : ∀ x ∈ pre, isRaiseItem x = false) :
    invoke_model_stream model_id (pre ++ StreamItem.raise msg :: post) cs
      = invoke_model_stream model_id pre cs ++ ["Error: " ++ msg]
    ∧ answer_with_context_stream model_id (pre ++ StreamItem.raise msg :: post) cs
      = (if family_of model_id = Family.unsupported then
          ["Model not supported for streaming: " ++ model_id]
         else invoke_model_stream model_id pre cs ++ ["Error: " ++ msg])
    ∧ invoke_model_with_context_stream_frags model_id (pre ++ StreamItem.raise msg :: post)
      = (if family_of model_id = Family.unsupported then ["Model not supported."]
         else invoke_model_stream model_id pre true ++ ["Error: " ++ msg]) := by
  refine ⟨run_stream_raise _ _ _ _ _ hpre, ?_, ?_⟩
  · unfold answer_with_context_stream
    split
    · rfl
    · exact run_stream_raise _ _ _ _ _ hpre
  · unfold invoke_model_with_context_stream_frags
    split
    · rfl
    · exact run_stream_raise _ _ _ _ _ hpre

/-- C9 witness: a Claude-3 stream that decodes one frame and then raises;
items after the raise are present but never yielded. -/
theorem c9_stream_error_single_diagnostic_witness :
    (∀ x ∈ [StreamItem.frame (some ⟨some "Hi", none, none, none⟩)], isRaiseItem x = false)
    ∧ (invoke_model_stream "anthropic.claude-3-haiku"
        ([StreamItem.frame (some ⟨some "Hi", none, none, none⟩)]
          ++ StreamItem.raise "boom" :: [StreamItem.raise "later"]) false
        = invoke_model_stream "anthropic.claude-3-haiku"
            [StreamItem.frame (some ⟨some "Hi", none, none, none⟩)] false
          ++ ["Error: " ++ "boom"]
      ∧ answer_with_context_stream "anthropic.claude-3-haiku"
          ([StreamItem.frame (some ⟨some "Hi", none, none, none⟩)]
            ++ StreamItem.raise "boom" :: [StreamItem.raise "later"]) false
        = (if family_of "anthropic.claude-3-haiku" = Family.unsupported then
            ["Model not supported for streaming: " ++ "anthropic.claude-3-haiku"]
           else invoke_model_stream "anthropic.claude-3-haiku"
              [StreamItem.frame (some ⟨some "Hi", none, none, none⟩)] false
            ++ ["Error: " ++ "boom"])
      ∧ invoke_model_with_context_stream_frags "anthropic.claude-3-haiku"
          ([StreamItem.frame (some ⟨some "Hi", none, none, none⟩)]
            ++ StreamItem.raise "boom" :: [StreamItem.raise "later"])
        = (if family_of "anthropic.claude-3-haiku" = Family.unsupported then
            ["Model not supported."]
           else invoke_model_stream "anthropic.claude-3-haiku"
              [StreamItem.frame (some ⟨some "Hi", none, none, none⟩)] true
            ++ ["Error: " ++ "boom"])) :=
  ⟨by decide,
    c9_stream_error_single_diagnostic "anthropic.claude-3-haiku"
      [StreamItem.frame (some ⟨some "Hi", none, none, none⟩)]
      [StreamItem.raise "later"] "boom" false (by decide)⟩

/-!
## Retry policy

`retry_bedrock_call` in `src/app.py` (lines 23-38): up to `retries` attempts
(1-based); an error whose text matches a throttling signal sleeps
`min(base_delay * 2**(attempt-1), max_delay) + uniform(0, 0.5)`; any other
error sleeps a fixed 1 second; exhausting the budget returns a sentinel
string.  The attempt oracle `f` supplies each attempt's outcome and `jitter`
supplies each attempt's draw of `random.uniform(0, 0.5)`.  The result pairs
the returned value with the list of sleep durations, in order.

`src/ui/rag_ui.py` (lines 7-14) has a second, different wrapper of the same
name: 0-based attempts, sleep `delay * 2**attempt` on ANY exception, no cap
and no jitter, sentinel after `retries` failures.
-/

/-- `"Throttling" in err or "Rate exceeded" in err`. -/
def isThrottleErr (e : String) : Bool :=
  containsSub e "Throttling" || containsSub e "Rate exceeded"

def retry_loop (f : Nat → Except String String) (jitter : Nat → ℚ)
    (base_delay max_delay : ℚ) : Nat → Nat → String × List ℚ
  | 0, _ => ("Bedrock API throttled. Please try again later.", [])
  | rem + 1, attempt =>
    match f attempt with
    | Except.ok v => (v, [])
    | Except.error e =>
      let sleep_time :=
        if isThrottleErr e then
          min (base_delay * 2 ^ (attempt - 1)) max_delay + jitter attempt
        else 1
      let p := retry_loop f jitter base_delay max_delay rem (attempt + 1)
      (p.1, sleep_time :: p.2)

/-- `retry_bedrock_call` of `src/app.py` (defaults `retries=5, base_delay=1,
max_delay=15`). -/
def retry_bedrock_call (f : Nat → Except String String) (jitter : Nat → ℚ)
    (retries : Nat) (base_delay max_delay : ℚ) : String × List ℚ :=
  retry_loop f jitter base_delay max_delay retries 1

def retry_loop_ui (f : Nat → Except String String) (delay : ℚ) :
    Nat → Nat → String × List ℚ
  | 0, _ => ("⚠️ Bedrock API throttled. Please try again later.", [])
  | rem + 1, attempt =>
    match f attempt with
    | Except.ok v => (v, [])
    | Except.error _ =>
      let p := retry_loop_ui f delay rem (attempt + 1)
      (p.1, delay * 2 ^ attempt :: p.2)

/-- `retry_bedrock_call` of `src/ui/rag_ui.py` (defaults `retries=3,
delay=1`). -/
def retry_bedrock_call_ui (f : Nat → Except String String) (retries : Nat)
    (delay : ℚ) : String × List ℚ :=
  retry_loop_ui f delay retries 0

/-- C6 counterexample: with five consecutive throttling failures and a
jitter draw of `1/4` (inside `uniform(0, 0.5)`), the fifth sleep of the
`app.py` wrapper is `min(1·2⁴, 15) + 1/4 = 61/4 > 15`: a single attempt
sleeps MORE than the configured cap, because the jitter is added after
capping.  Also, the `rag_ui.py` wrapper cited by the same claim sleeps a
plain uncapped, unjittered `delay·2^attempt` on any error, and given three
throttling failures followed by success it returns the sentinel, not the
success value (its budget is 3). -/
theorem c6_counterexample :
    (retry_bedrock_call (fun _ => Except.error "Throttling") (fun _ => (1 : ℚ)/4)
        5 1 15).2 = [5/4, 9/4, 17/4, 33/4, 61/4]
    ∧ ((0 : ℚ) ≤ 1/4 ∧ (1 : ℚ)/4 < 1/2)
    ∧ (61/4 : ℚ) > 15
    ∧ (retry_bedrock_call_ui
          (fun a => if a ≤ 2 then Except.error "Throttling" else Except.ok "answer")
          3 1).2 = [1, 2, 4]
    ∧ (retry_bedrock_call_ui
          (fun a => if a ≤ 2 then Except.error "Throttling" else Except.ok "answer")
          3 1).1 = "⚠️ Bedrock API throttled. Please try again later." := by
  have ht : isThrottleErr "Throttling" = true := by decide
  refine ⟨?_, by norm_num, by norm_num, ?_, ?_⟩
  · simp only [retry_bedrock_call, retry_loop, ht, if_true]
    norm_num
  · simp only [retry_bedrock_call_ui, retry_loop_ui]
    norm_num
  · simp only [retry_bedrock_call_ui, retry_loop_ui]
    norm_num

/-- C6 (amended): each throttling sleep is
`min(base · 2^(attempt-1), cap) + uniform(0, 0.5)` — at most the cap plus
the jitter, strictly less than `cap + 1/2`, but NOT at most the cap (the
counterexample exceeds it); given three throttling failures then a success
on attempt 4, the `app.py` wrapper (budget 5) returns the success value,
sleeping exactly the three capped-backoff-plus-jitter durations. -/
theorem c6_retry_backoff (f : Nat → Except String String) (jitter : Nat → ℚ)
    (base cap : ℚ) (e1 e2 e3 v : String)
    (hj : ∀ n, 0 ≤ jitter n ∧ jitter n < 1/2)
    (h1 : f 1 = Except.error e1) (ht1 : isThrottleErr e1 = true)
    (h2 : f 2 = Except.error e2) (ht2 : isThrottleErr e2 = true)
    (h3 : f 3 = Except.error e3) (ht3 : isThrottleErr e3 = true)
    (h4 : f 4 = Except.ok v) :
    (retry_bedrock_call f jitter 5 base cap).1 = v
    ∧ (retry_bedrock_call f jitter 5 base cap).2
        = [min (base * 2 ^ 0) cap + jitter 1,
           min (base * 2 ^ 1) cap + jitter 2,
           min (base * 2 ^ 2) cap + jitter 3]
    ∧ ∀ s ∈ (retry_bedrock_call f jitter 5 base cap).2, s < cap + 1/2 := by
  have hrun : retry_bedrock_call f jitter 5 base cap
      = (v, [min (base * 2 ^ 0) cap + jitter 1,
             min (base * 2 ^ 1) cap + jitter 2,
             min (base * 2 ^ 2) cap + jitter 3]) := by
    simp only [retry_bedrock_call, retry_loop, h1, h2, h3, h4, ht1, ht2, ht3, if_true]
  refine ⟨by rw [hrun], by rw [hrun], ?_⟩
  rw [hrun]
  intro s hs
  have hbound : ∀ a : Nat, ∀ n : Nat, min (base * 2 ^ n) cap + jitter a < cap + 1/2 := by
    intro a n
    have := (hj a).2
    have hmin : min (base * 2 ^ n) cap ≤ cap := min_le_right _ _
    linarith
  simp only [List.mem_cons, List.not_mem_nil, or_false] at hs
  rcases hs with rfl | rfl | rfl
  · exact hbound 1 0
  · exact hbound 2 1
  · exact hbound 3 2

/-- C6 witness: the amended statement at a concrete failing-then-succeeding
oracle and concrete jitter. -/
theorem c6_retry_backoff_witness :
    ((∀ n : Nat, 0 ≤ ((1 : ℚ)/4) ∧ ((1 : ℚ)/4) < 1/2)
      ∧ (fun a => if a = 4 then Except.ok "answer" else Except.error "Throttling") 1
          = Except.error "Throttling"
      ∧ isThrottleErr "Throttling" = true
      ∧ (fun a => if a = 4 then Except.ok "answer" else Except.error "Throttling") 4
          = Except.ok "answer")
    ∧ ((retry_bedrock_call
          (fun a => if a = 4 then Except.ok "answer" else Except.error "Throttling")
          (fun _ => (1 : ℚ)/4) 5 1 15).1 = "answer"
      ∧ (retry_bedrock_call
          (fun a => if a = 4 then Except.ok "answer" else Except.error "Throttling")
          (fun _ => (1 : ℚ)/4) 5 1 15).2
          = [min ((1 : ℚ) * 2 ^ 0) 15 + (1 : ℚ)/4,
             min ((1 : ℚ) * 2 ^ 1) 15 + (1 : ℚ)/4,
             min ((1 : ℚ) * 2 ^ 2) 15 + (1 : ℚ)/4]
      ∧ ∀ s ∈ (retry_bedrock_call
          (fun a => if a = 4 then Except.ok "answer" else Except.error "Throttling")
          (fun _ => (1 : ℚ)/4) 5 1 15).2, s < 15 + 1/2) :=
  ⟨⟨fun _ => ⟨by norm_num, by norm_num⟩, by rfl, by decide, by rfl⟩,
    c6_retry_backoff
      (fun a => if a = 4 then Except.ok "answer" else Except.error "Throttling")
      (fun _ => (1 : ℚ)/4) 1 15 "Throttling" "Throttling" "Throttling" "answer"
      (fun _ => ⟨by norm_num, by norm_num⟩)
      (by rfl) (by decide) (by rfl) (by decide) (by rfl) (by decide) (by rfl)⟩

/-!
## Message-history effects of the generation paths

`OptimizedRAG._invoke_model_with_context` (`src/bedrock_app/optimized_rag.py`
lines 139-214) and `answer_with_context` (`src/bedrock_app/rag.py` lines
6-85) append, for Claude-3 family models, the context-wrapped user prompt to
the CALLER-SUPPLIED `message_history` list before the call, and the
assistant reply after a successful decode; their streaming counterparts
(`_invoke_model_with_context_stream`, `answer_with_context_stream`) build
`temp_messages = message_history.copy() + [...]` (resp. `message_history +
[...]`) and leave the caller's list untouched.  The embeddings return the
caller-visible final history explicitly; the caught `ClientError` is the
`Except.error` oracle; a decode `KeyError` (uncaught in the source)
surfaces as `InvokeResult.raised`.
-/

/-- A conversation message (`{"role": ..., "content": ...}`). -/
structure Message where
  role : String
  content : String
deriving DecidableEq

/-- Outcome of a blocking generation call: a raised exception or a returned
`Optional[str]`. -/
inductive InvokeResult where
  | raised (msg : String)
  | ret (r : Option String)
deriving DecidableEq

/-- `OptimizedRAG._invoke_model_with_context`: result and the caller's
history after the call. -/
def invoke_model_with_context (model_id user_question context : String)
    (message_history : List Message) (net : Except String ResponseBody) :
    InvokeResult × List Message :=
  match family_of model_id with
  | Family.claude3 =>
    let prompt_text := "Context:\n" ++ context ++ "\n\nQuestion:\n" ++ user_question
    let h1 := message_history ++ [⟨"user", prompt_text⟩]
    (match net with
     | Except.error _ => (InvokeResult.ret none, h1)
     | Except.ok rb =>
       match decode_response Family.claude3 rb with
       | Except.ok reply => (InvokeResult.ret (some reply), h1 ++ [⟨"assistant", reply⟩])
       | Except.error e => (InvokeResult.raised e, h1))
  | Family.unsupported => (InvokeResult.ret none, message_history)
  | fam =>
    match net with
    | Except.error _ => (InvokeResult.ret none, message_history)
    | Except.ok rb =>
      match decode_response fam rb with
      | Except.ok t => (InvokeResult.ret (some t), message_history)
      | Except.error e => (InvokeResult.raised e, message_history)

/-- `OptimizedRAG._invoke_model_with_context_stream`: yielded fragments and
the caller's history after the call (the stream builds its request on a
copy, so the history comes back unchanged). -/
def invoke_model_with_context_stream (model_id user_question context : String)
    (message_history : List Message) (items : List StreamItem) :
    List String × List Message :=
  (invoke_model_with_context_stream_frags model_id items, message_history)

/-- `answer_with_context` (`src/bedrock_app/rag.py` lines 6-85): result and
the caller's history after the call.  Only the Claude-3 branch touches the
history (user prompt before the call, assistant reply after a successful
decode). -/
def answer_with_context (model_id user_question retrieved_text : String)
    (message_history : List Message) (net : Except String ResponseBody) :
    InvokeResult × List Message :=
  match family_of model_id with
  | Family.claude3 =>
    let h1 := message_history
      ++ [⟨"user", "Use the following context to answer the question.\n\nContext:\n"
            ++ retrieved_text ++ "\n\nQuestion:\n" ++ user_question⟩]
    (match net with
     | Except.error _ => (InvokeResult.ret none, h1)
     | Except.ok rb =>
       match decode_response Family.claude3 rb with
       | Except.ok reply => (InvokeResult.ret (some reply), h1 ++ [⟨"assistant", reply⟩])
       | Except.error e => (InvokeResult.raised e, h1))
  | Family.unsupported => (InvokeResult.ret none, message_history)
  | fam =>
    match net with
    | Except.error _ => (InvokeResult.ret none, message_history)
    | Except.ok rb =>
      match decode_response fam rb with
      | Except.ok t => (InvokeResult.ret (some t), message_history)
      | Except.error e => (InvokeResult.raised e, message_history)

/-- C10: for Claude-3 family models, on a successful call the blocking
generation paths hand back the caller's history extended in place by the
context-wrapped user prompt and the assistant reply, while the streaming
path hands the history back unchanged — so the two forms leave the caller's
history in different states. -/
theorem c10_history_mutation (model_id q ctx : String) (h : List Message)
    (rb : ResponseBody) (items : List StreamItem) (reply : String)
    (hfam : family_of model_id = Family.claude3)
    (hdec : decode_response Family.claude3 rb = Except.ok reply) :
    invoke_model_with_context model_id q ctx h (Except.ok rb)
        = (InvokeResult.ret (some reply),
            h ++ [⟨"user", "Context:\n" ++ ctx ++ "\n\nQuestion:\n" ++ q⟩,
                  ⟨"assistant", reply⟩])
    ∧ (invoke_model_with_context_stream model_id q ctx h items).2 = h
    ∧ answer_with_context model_id q ctx h (Except.ok rb)
        = (InvokeResult.ret (some reply),
            h ++ [⟨"user", "Use the following context to answer the question.\n\nContext:\n"
                    ++ ctx ++ "\n\nQuestion:\n" ++ q⟩,
                  ⟨"assistant", reply⟩])
    ∧ h ++ [(⟨"user", "Context:\n" ++ ctx ++ "\n\nQuestion:\n" ++ q⟩ : Message),
            ⟨"assistant", reply⟩] ≠ h := by
  refine ⟨?_, rfl, ?_, ?_⟩
  · unfold invoke_model_with_context
    rw [hfam]
    simp [hdec]
  · unfold answer_with_context
    rw [hfam]
    simp [hdec]
  · intro hcontra
    have := congrArg List.length hcontra
    simp at this

/-- C10 witness: the mutation contrast at a concrete Claude-3 call. -/
theorem c10_history_mutation_witness :
    (family_of "anthropic.claude-3-haiku" = Family.claude3
      ∧ decode_response Family.claude3 ⟨some [⟨some "Hello"⟩], none, none, none, none⟩
          = Except.ok "Hello")
    ∧ (invoke_model_with_context "anthropic.claude-3-haiku" "Q" "C"
          [⟨"user", "earlier"⟩] (Except.ok ⟨some [⟨some "Hello"⟩], none, none, none, none⟩)
        = (InvokeResult.ret (some "Hello"),
            [⟨"user", "earlier"⟩]
              ++ [⟨"user", "Context:\n" ++ "C" ++ "\n\nQuestion:\n" ++ "Q"⟩,
                  ⟨"assistant", "Hello"⟩])
      ∧ (invoke_model_with_context_stream "anthropic.claude-3-haiku" "Q" "C"
          [⟨"user", "earlier"⟩] []).2 = [⟨"user", "earlier"⟩]
      ∧ answer_with_context "anthropic.claude-3-haiku" "Q" "C"
          [⟨"user", "earlier"⟩] (Except.ok ⟨some [⟨some "Hello"⟩], none, none, none, none⟩)
        = (InvokeResult.ret (some "Hello"),
            [⟨"user", "earlier"⟩]
              ++ [⟨"user", "Use the following context to answer the question.\n\nContext:\n"
                    ++ "C" ++ "\n\nQuestion:\n" ++ "Q"⟩,
                  ⟨"assistant", "Hello"⟩])
      ∧ [⟨"user", "earlier"⟩]
            ++ [(⟨"user", "Context:\n" ++ "C" ++ "\n\nQuestion:\n" ++ "Q"⟩ : Message),
                ⟨"assistant", "Hello"⟩]
          ≠ [⟨"user", "earlier"⟩]) :=
  ⟨⟨by rfl, by rfl⟩,
    c10_history_mutation "anthropic.claude-3-haiku" "Q" "C" [⟨"user", "earlier"⟩]
      ⟨some [⟨some "Hello"⟩], none, none, none, none⟩ [] "Hello" (by rfl) (by rfl)⟩

/-!
## Orchestrator: caches, memory and the request lifecycle

`OptimizedRAG` (`src/bedrock_app/optimized_rag.py`) composes a `PromptCache`,
a `ContextMemoryStore` and a `VectorStoreManager`.  Those three modules are
imported by the orchestrator but are not under `src/`; their state and
operations are modelled from the specification (§4.3, §4.4), as their doc
comments state.  The retrieval operations (`retrieve_similar_contexts`,
`semantic_search`) and the generation call are oracle arguments; the
orchestrator's own control flow, statistics bookkeeping, context building
and write-back are translated from the source.  Each run returns, besides
its result, the final store state and an event trace recording every
response-cache lookup (with the key it used), every response-cache write
(with its key pair) and whether a generation call was made.
-/

/-- A response-cache entry (spec §3: CacheEntry). -/
structure CacheEntry where
  response : String
  model_id : String
  tokens_saved : Nat
deriving DecidableEq

/-- Chunk-cache metadata: `{"source": filename, "score": score}`. -/
structure ChunkMeta where
  source : String
  score : ℚ
deriving DecidableEq

/-- Modelled from the spec: `prompt_cache.py` is not under `src/`.  §4.3:
two independent keyspaces — a response cache keyed by the exact
(question, context) pair and a chunk cache keyed by chunk content. -/
structure PromptCache where
  response_cache : List ((String × String) × CacheEntry)
  chunk_cache : List (String × ChunkMeta)
deriving DecidableEq

/-- Modelled from the spec: `get_cached_response` — exact-match lookup.  The
orchestrator call sites pass the question alone (spec §4.6 step 1: "exact
lookup by raw question ... without the not-yet-built context"), so the
context component of the key defaults to the empty string.  The signature
takes no context argument: the lookup key is determined by the question
alone. -/
def PromptCache.get_cached_response (pc : PromptCache) (question : String) :
    Option CacheEntry :=
  (pc.response_cache.find? (fun kv => kv.1 == (question, ""))).map (fun kv => kv.2)

/-- Modelled from the spec: `cache_response` inserts or overwrites under the
exact (question, context) pair. -/
def PromptCache.cache_response (pc : PromptCache) (question context response
    model_id : String) (tokens_saved : Nat) : PromptCache :=
  { pc with response_cache :=
      ((question, context), ⟨response, model_id, tokens_saved⟩) :: pc.response_cache }

/-- Modelled from the spec: `cache_context_chunk` notes a retrieved chunk
under its content alone. -/
def PromptCache.cache_context_chunk (pc : PromptCache) (content : String)
    (meta : ChunkMeta) : PromptCache :=
  { pc with chunk_cache := (content, meta) :: pc.chunk_cache }

/-- A stored interaction (spec §3: MemoryRecord; `context_memory.py` is not
under `src/`). -/
structure MemoryRecord where
  query : String
  context : String
  response : String
  tags : List String
  confidence_score : ℚ
  model_id : String
deriving DecidableEq

/-- Modelled from the spec: `store_context` appends an immutable record and
returns a generated id (the record count). -/
def store_context (memory : List MemoryRecord) (r : MemoryRecord) :
    List MemoryRecord × Nat :=
  (memory ++ [r], memory.length)

/-- Python's `str.join` on a separator. -/
def pyJoin (sep : String) : List String → String
  | [] => ""
  | [s] => s
  | s :: t :: rest => s ++ sep ++ pyJoin sep (t :: rest)

/-- Python `f"{x:.2%}"`: the confidence score as a percentage with two
decimals (the sources only ever format `0.85` and `0.5`; the rounding mode
on other rationals is inessential to every claim). -/
def formatPercent (x : ℚ) : String :=
  let cents : Int := ⌊x * 10000 + 1/2⌋
  let whole := cents / 100
  let frac := (cents % 100).toNat
  toString whole ++ "." ++ (if frac < 10 then "0" ++ toString frac else toString frac) ++ "%"

/-- `BuildContext` (`src/bedrock_app/optimized_rag.py` lines 71-84 and
297-308): memory blocks then document blocks, each block a labelled header,
the block text, and a blank line, all joined with newlines. -/
def buildContext (past : List MemoryRecord)
    (retrieved : List (String × ℚ × String)) : String :=
  pyJoin "\n"
    ((past.map (fun p =>
        ["[Memory - Confidence: " ++ formatPercent p.confidence_score ++ "]",
         p.response, ""])).flatten
      ++ (retrieved.map (fun r => ["[Document: " ++ r.1 ++ "]", r.2.2, ""])).flatten)

/-- Observable cache/generation actions of one orchestrator run. -/
inductive Event where
  | cacheGet (question : String)
  | cachePut (question context : String)
  | generate
deriving DecidableEq

/-- Blocking-run statistics (`stats` dict of `answer_with_optimization`). -/
structure Stats where
  cache_hit : Bool
  memory_reused : Bool
  contexts_retrieved : Nat
  tokens_saved : Nat
  optimization_source : List String
deriving DecidableEq

/-- Streaming-run statistics (`stats` dict of
`answer_with_optimization_stream`, which adds `"streaming": True`). -/
structure SStats where
  cache_hit : Bool
  memory_reused : Bool
  contexts_retrieved : Nat
  tokens_saved : Nat
  optimization_source : List String
  streaming : Bool
deriving DecidableEq

/-- The orchestrator's store state: its `PromptCache` and the memory
records. -/
structure RAGState where
  prompt_cache : PromptCache
  memory : List MemoryRecord
deriving DecidableEq

/-- The dict returned by `answer_with_optimization` (`from_cache` is present
on the hit and normal paths, `error` on the failure path; absent keys are
`false` here). -/
structure AnswerOutcome where
  response : String
  stats : Stats
  from_cache : Bool
  error : Bool
deriving DecidableEq

/-- `OptimizedRAG.answer_with_optimization`
(`src/bedrock_app/optimized_rag.py` lines 30-137).  Oracles:
`retrieveSim` is `memory_store.retrieve_similar_contexts`, `search` is
`vector_store_manager.semantic_search` (both from modules not under `src/`),
`gen` is the outcome of `_invoke_model_with_context` (`none` = error). -/
def answer_with_optimization (st : RAGState)
    (retrieveSim : String → Nat → List MemoryRecord)
    (search : String → Nat → List (String × ℚ × String))
    (gen : Option String) (model_id user_question : String)
    (use_cache store_memory retrieve_past_contexts : Bool) :
    AnswerOutcome × RAGState × List Event :=
  let stats0 : Stats := ⟨false, false, 0, 0, []⟩
  let hitEvents := if use_cache then [Event.cacheGet user_question] else []
  match (if use_cache then st.prompt_cache.get_cached_response user_question else none) with
  | some entry =>
    (⟨entry.response,
      { stats0 with
        cache_hit := true,
        tokens_saved := entry.tokens_saved,
        optimization_source := stats0.optimization_source ++ ["prompt_cache"] },
      true, false⟩, st, hitEvents)
  | none =>
    let past := if retrieve_past_contexts then retrieveSim user_question 3 else []
    let stats1 := if past.isEmpty then stats0 else
      { stats0 with
        memory_reused := true,
        optimization_source := stats0.optimization_source ++ ["context_memory"] }
    let retrieved := search user_question 3
    let stats2 := { stats1 with contexts_retrieved := retrieved.length }
    let combined_context := buildContext past retrieved
    let pc1 := retrieved.foldl
      (fun pc r => pc.cache_context_chunk r.2.2 ⟨r.1, r.2.1⟩) st.prompt_cache
    let evs := hitEvents ++ [Event.generate]
    match gen with
    | none => (⟨"Error generating response", stats2, false, true⟩, ⟨pc1, st.memory⟩, evs)
    | some response =>
      let step3 :=
        if use_cache then
          let est := (pysplit combined_context).length / 4
          (pc1.cache_response user_question combined_context response model_id est,
           { stats2 with
             tokens_saved := est,
             optimization_source := stats2.optimization_source ++ ["newly_cached"] },
           evs ++ [Event.cachePut user_question combined_context])
        else (pc1, stats2, evs)
      let step4 :=
        if store_memory then
          let confidence : ℚ := if retrieved.length > 0 then 0.85 else 0.5
          let tags := extract_tags user_question
          ((store_context st.memory
              ⟨user_question, combined_context, response, tags, confidence, model_id⟩).1,
           { step3.2.1 with
             optimization_source := step3.2.1.optimization_source ++ ["memory_stored"] },
           step3.2.2)
        else (st.memory, step3.2.1, step3.2.2)
      (⟨response, step4.2.1, false, false⟩, ⟨step3.1, step4.1⟩, step4.2.2)

/-- The value of `answer_with_optimization_stream`'s run: the `(token,
stats-copy)` pairs it yields, the generator-local `stats` value after the
run (never yielded), the final store state and the event trace. -/
structure StreamOutcome where
  yields : List (String × SStats)
  final_stats : SStats
  state : RAGState
  events : List Event
deriving DecidableEq

/-- `OptimizedRAG.answer_with_optimization_stream`
(`src/bedrock_app/optimized_rag.py` lines 248-355).  On a cache hit the
stored response is re-tokenised by `split()` and each token is yielded with
a trailing space; on a miss the generation oracle's tokens `genToks` are
yielded with the pre-write-back stats value, and the write-back (response
cache insert, memory store, stats updates) happens after the last yield. -/
def answer_with_optimization_stream (st : RAGState)
    (retrieveSim : String → Nat → List MemoryRecord)
    (search : String → Nat → List (String × ℚ × String))
    (genToks : List String) (model_id user_question : String)
    (use_cache store_memory retrieve_past_contexts : Bool) : StreamOutcome :=
  let stats0 : SStats := ⟨false, false, 0, 0, [], true⟩
  let hitEvents := if use_cache then [Event.cacheGet user_question] else []
  match (if use_cache then st.prompt_cache.get_cached_response user_question else none) with
  | some entry =>
    let hstats : SStats :=
      { stats0 with
        cache_hit := true,
        tokens_saved := entry.tokens_saved,
        optimization_source := stats0.optimization_source ++ ["prompt_cache"] }
    ⟨(pysplit entry.response).map (fun tok => (tok ++ " ", hstats)), hstats, st, hitEvents⟩
  | none =>
    let past := if retrieve_past_contexts then retrieveSim user_question 3 else []
    let stats1 := if past.isEmpty then stats0 else
      { stats0 with
        memory_reused := true,
        optimization_source := stats0.optimization_source ++ ["context_memory"] }
    let retrieved := search user_question 3
    let stats2 := { stats1 with contexts_retrieved := retrieved.length }
    let combined_context := buildContext past retrieved
    let pc1 := retrieved.foldl
      (fun pc r => pc.cache_context_chunk r.2.2 ⟨r.1, r.2.1⟩) st.prompt_cache
    let evs := hitEvents ++ [Event.generate]
    let full_response := concatS genToks
    let yields := genToks.map (fun tok => (tok, stats2))
    let step3 :=
      if use_cache then
        let est := (pysplit combined_context).length / 4
        (pc1.cache_response user_question combined_context full_response model_id est,
         { stats2 with
           tokens_saved := est,
           optimization_source := stats2.optimization_source ++ ["newly_cached"] },
         evs ++ [Event.cachePut user_question combined_context])
      else (pc1, stats2, evs)
    let step4 :=
      if store_memory then
        let confidence : ℚ := if retrieved.length > 0 then 0.85 else 0.5
        let tags := extract_tags user_question
        ((store_context st.memory
            ⟨user_question, combined_context, full_response, tags, confidence, model_id⟩).1,
         { step3.2.1 with
           optimization_source := step3.2.1.optimization_source ++ ["memory_stored"] },
         step3.2.2)
      else (st.memory, step3.2.1, step3.2.2)
    ⟨yields, step4.2.1, ⟨step3.1, step4.1⟩, step4.2.2⟩

def isCacheGetEv : Event → Bool
  | Event.cacheGet _ => true
  | _ => false

def isCachePutEv : Event → Bool
  | Event.cachePut _ _ => true
  | _ => false

/-- C1 (amended): on a cache hit with caching enabled, both orchestrator
forms record `cache_hit = true`, take `tokens_saved` from the entry, list
exactly `["prompt_cache"]` as optimization sources, leave every store
untouched and make no generation call; the blocking form returns the stored
response unmodified, while the streaming form re-tokenises the stored
response with `split()` and yields each token with a trailing space — so
the concatenation of its fragments is the whitespace-tokens of the stored
response rejoined with single spaces plus a trailing space, not the stored
text itself (see the counterexample). -/
theorem c1_cache_hit_short_circuit (st : RAGState)
    (retrieveSim : String → Nat → List MemoryRecord)
    (search : String → Nat → List (String × ℚ × String))
    (gen : Option String) (genToks : List String)
    (model_id user_question : String) (sm rpc : Bool) (entry : CacheEntry)
    (hhit : st.prompt_cache.get_cached_response user_question = some entry) :
    answer_with_optimization st retrieveSim search gen model_id user_question true sm rpc
      = (⟨entry.response, ⟨true, false, 0, entry.tokens_saved, ["prompt_cache"]⟩,
          true, false⟩, st, [Event.cacheGet user_question])
    ∧ answer_with_optimization_stream st retrieveSim search genToks model_id
        user_question true sm rpc
      = ⟨(pysplit entry.response).map
          (fun tok => (tok ++ " ",
            ⟨true, false, 0, entry.tokens_saved, ["prompt_cache"], true⟩)),
         ⟨true, false, 0, entry.tokens_saved, ["prompt_cache"], true⟩, st,
         [Event.cacheGet user_question]⟩
    ∧ Event.generate
        ∉ (answer_with_optimization st retrieveSim search gen model_id
            user_question true sm rpc).2.2
    ∧ Event.generate
        ∉ (answer_with_optimization_stream st retrieveSim search genToks model_id
            user_question true sm rpc).events
    ∧ concatS ((answer_with_optimization_stream st retrieveSim search genToks model_id
          user_question true sm rpc).yields.map Prod.fst)
        = concatS ((pysplit entry.response).map (fun tok => tok ++ " ")) := by
  have hb : answer_with_optimization st retrieveSim search gen model_id user_question
      true sm rpc
      = (⟨entry.response, ⟨true, false, 0, entry.tokens_saved, ["prompt_cache"]⟩,
          true, false⟩, st, [Event.cacheGet user_question]) := by
    unfold answer_with_optimization
    simp [hhit]
  have hs : answer_with_optimization_stream st retrieveSim search genToks model_id
      user_question true sm rpc
      = ⟨(pysplit entry.response).map
          (fun tok => (tok ++ " ",
            ⟨true, false, 0, entry.tokens_saved, ["prompt_cache"], true⟩)),
         ⟨true, false, 0, entry.tokens_saved, ["prompt_cache"], true⟩, st,
         [Event.cacheGet user_question]⟩ := by
    unfold answer_with_optimization_stream
    simp [hhit]
  refine ⟨hb, hs, ?_, ?_, ?_⟩
  · rw [hb]; simp
  · rw [hs]; simp
  · rw [hs]; simp [List.map_map]; rfl

/-- C1 counterexample: with the stored response `"hello world"`, the
streaming form's fragments concatenate to `"hello world "` (trailing space
added by the re-tokenisation), which differs from the stored response —
refuting "delivers the stored response text unmodified ... the
concatenation of all yielded fragments equals the stored response exactly"
for the streaming form (the blocking form does return it unmodified). -/
theorem c1_counterexample :
    (⟨⟨[(("q", ""), ⟨"hello world", "m", 7⟩)], []⟩, []⟩ : RAGState).prompt_cache.get_cached_response "q"
      = some ⟨"hello world", "m", 7⟩
    ∧ concatS ((answer_with_optimization_stream
          ⟨⟨[(("q", ""), ⟨"hello world", "m", 7⟩)], []⟩, []⟩
          (fun _ _ => []) (fun _ _ => []) ["tok"] "m" "q" true true true).yields.map
            Prod.fst)
        = "hello world "
    ∧ "hello world " ≠ "hello world"
    ∧ (answer_with_optimization
          ⟨⟨[(("q", ""), ⟨"hello world", "m", 7⟩)], []⟩, []⟩
          (fun _ _ => []) (fun _ _ => []) (some "generated") "m" "q" true true
          true).1.response
        = "hello world" := by
  refine ⟨by decide, by decide, by decide, by decide⟩

theorem map_fst_comp_pair {A B : Type _} (l : List A) (b : B) :
    l.map (Prod.fst ∘ fun a => (a, b)) = l := by
  induction l with
  | nil => rfl
  | cons a t ih => simp [ih]

/-- C2 (amended): on the cache-miss path with caching and memory storage
enabled, the streaming orchestrator yields exactly the generation tokens —
each paired with the PRE-write-back stats snapshot (`tokens_saved = 0`, no
`"newly_cached"`/`"memory_stored"` tag) — and yields nothing after the last
token; the write-back effects (the new entry's token estimate and both
tags) land only in the generator-local stats value after the final yield
and are never delivered with any fragment.  (Because the yielded dict
copies share the tag list, a caller re-inspecting old snapshots after
exhausting the generator can observe the tags retroactively; the
`tokens_saved` value, an immutable int in each copy, is never updated in
any snapshot.) -/
theorem c2_stats_finalized_after_last_yield (st : RAGState)
    (retrieveSim : String → Nat → List MemoryRecord)
    (search : String → Nat → List (String × ℚ × String))
    (genToks : List String) (model_id user_question : String) (rpc : Bool)
    (hmiss : st.prompt_cache.get_cached_response user_question = none) :
    (answer_with_optimization_stream st retrieveSim search genToks model_id
        user_question true true rpc).yields.map Prod.fst = genToks
    ∧ (∀ p ∈ (answer_with_optimization_stream st retrieveSim search genToks model_id
          user_question true true rpc).yields,
        p.2.tokens_saved = 0
        ∧ "newly_cached" ∉ p.2.optimization_source
        ∧ "memory_stored" ∉ p.2.optimization_source)
    ∧ "newly_cached" ∈ (answer_with_optimization_stream st retrieveSim search genToks
        model_id user_question true true rpc).final_stats.optimization_source
    ∧ "memory_stored" ∈ (answer_with_optimization_stream st retrieveSim search genToks
        model_id user_question true true rpc).final_stats.optimization_source
    ∧ (answer_with_optimization_stream st retrieveSim search genToks model_id
        user_question true true rpc).final_stats.tokens_saved
      = (pysplit (buildContext (if rpc then retrieveSim user_question 3 else [])
          (search user_question 3))).length / 4 := by
  refine ⟨?_, ?_, ?_, ?_, ?_⟩
  · unfold answer_with_optimization_stream
    simp [hmiss, List.map_map, map_fst_comp_pair]
  · intro p hp
    unfold answer_with_optimization_stream at hp
    by_cases hpast : (if rpc then retrieveSim user_question 3 else []).isEmpty
    · simp [hmiss, hpast] at hp
      obtain ⟨tok, htok, rfl⟩ := hp
      exact ⟨rfl, by simp, by simp⟩
    · simp [hmiss, hpast] at hp
      obtain ⟨tok, htok, rfl⟩ := hp
      exact ⟨rfl, by simp, by simp⟩
  · unfold answer_with_optimization_stream
    simp [hmiss]
  · unfold answer_with_optimization_stream
    simp [hmiss]
  · unfold answer_with_optimization_stream
    simp [hmiss]

/-- C2 counterexample: one retrieved document ("a b c d e" under
"doc.txt"), one generation token, caching and memory on, empty caches.  The
single yielded pair carries `tokens_saved = 0` and no optimization tags,
while the never-yielded post-write-back stats carry `tokens_saved = 1` and
both `"newly_cached"` and `"memory_stored"`: the caller does NOT receive,
with or after the last fragment, stats including the write-back effects —
refuting the claim. -/
theorem c2_counterexample :
    (answer_with_optimization_stream ⟨⟨[], []⟩, []⟩ (fun _ _ => [])
        (fun _ _ => [("doc.txt", 1, "a b c d e")]) ["Hi"] "m" "q" true true true).yields
      = [("Hi", ⟨false, false, 1, 0, [], true⟩)]
    ∧ (answer_with_optimization_stream ⟨⟨[], []⟩, []⟩ (fun _ _ => [])
        (fun _ _ => [("doc.txt", 1, "a b c d e")]) ["Hi"] "m" "q" true true
        true).final_stats.tokens_saved = 1
    ∧ "newly_cached" ∈ (answer_with_optimization_stream ⟨⟨[], []⟩, []⟩ (fun _ _ => [])
        (fun _ _ => [("doc.txt", 1, "a b c d e")]) ["Hi"] "m" "q" true true
        true).final_stats.optimization_source
    ∧ "memory_stored" ∈ (answer_with_optimization_stream ⟨⟨[], []⟩, []⟩ (fun _ _ => [])
        (fun _ _ => [("doc.txt", 1, "a b c d e")]) ["Hi"] "m" "q" true true
        true).final_stats.optimization_source
    ∧ (∀ p ∈ (answer_with_optimization_stream ⟨⟨[], []⟩, []⟩ (fun _ _ => [])
          (fun _ _ => [("doc.txt", 1, "a b c d e")]) ["Hi"] "m" "q" true true
          true).yields,
        p.2.tokens_saved ≠ 1 ∧ "newly_cached" ∉ p.2.optimization_source
        ∧ "memory_stored" ∉ p.2.optimization_source) := by
  refine ⟨by decide, by decide, by decide, by decide, by decide⟩

/-- C2 witness: the amended statement applied to the counterexample's
concrete inputs. -/
theorem c2_stats_finalized_witness :
    (⟨⟨[], []⟩, []⟩ : RAGState).prompt_cache.get_cached_response "q" = none
    ∧ ((answer_with_optimization_stream ⟨⟨[], []⟩, []⟩ (fun _ _ => [])
          (fun _ _ => [("doc.txt", 1, "a b c d e")]) ["Hi"] "m" "q" true true
          true).yields.map Prod.fst = ["Hi"]
      ∧ (∀ p ∈ (answer_with_optimization_stream ⟨⟨[], []⟩, []⟩ (fun _ _ => [])
            (fun _ _ => [("doc.txt", 1, "a b c d e")]) ["Hi"] "m" "q" true true
            true).yields,
          p.2.tokens_saved = 0
          ∧ "newly_cached" ∉ p.2.optimization_source
          ∧ "memory_stored" ∉ p.2.optimization_source)
      ∧ "newly_cached" ∈ (answer_with_optimization_stream ⟨⟨[], []⟩, []⟩ (fun _ _ => [])
          (fun _ _ => [("doc.txt", 1, "a b c d e")]) ["Hi"] "m" "q" true true
          true).final_stats.optimization_source
      ∧ "memory_stored" ∈ (answer_with_optimization_stream ⟨⟨[], []⟩, []⟩ (fun _ _ => [])
          (fun _ _ => [("doc.txt", 1, "a b c d e")]) ["Hi"] "m" "q" true true
          true).final_stats.optimization_source
      ∧ (answer_with_optimization_stream ⟨⟨[], []⟩, []⟩ (fun _ _ => [])
          (fun _ _ => [("doc.txt", 1, "a b c d e")]) ["Hi"] "m" "q" true true
          true).final_stats.tokens_saved
        = (pysplit (buildContext (if true then (fun (_ : String) (_ : Nat) =>
              ([] : List MemoryRecord)) "q" 3 else [])
            ((fun (_ : String) (_ : Nat) => [("doc.txt", (1 : ℚ), "a b c d e")]) "q" 3))).length
          / 4) :=
  ⟨by decide,
    c2_stats_finalized_after_last_yield ⟨⟨[], []⟩, []⟩ (fun _ _ => [])
      (fun _ _ => [("doc.txt", 1, "a b c d e")]) ["Hi"] "m" "q" true (by decide)⟩

/-- C8: in every execution of either orchestrator form, every
response-cache lookup event carries the raw question as its only key (the
lookup function takes no context argument), and every response-cache write
event carries exactly the pair (question, builtContext) — the read/write
keying asymmetry holds unconditionally.  (The cache internals are modelled
from the spec, the call-site keying is from the source.) -/
theorem c8_cache_key_asymmetry (st : RAGState)
    (retrieveSim : String → Nat → List MemoryRecord)
    (search : String → Nat → List (String × ℚ × String))
    (gen : Option String) (genToks : List String)
    (model_id user_question : String) (uc sm rpc : Bool) :
    (∀ e ∈ (answer_with_optimization st retrieveSim search gen model_id user_question
        uc sm rpc).2.2,
      (isCacheGetEv e = true → e = Event.cacheGet user_question)
      ∧ (isCachePutEv e = true →
          e = Event.cachePut user_question
            (buildContext (if rpc then retrieveSim user_question 3 else [])
              (search user_question 3))))
    ∧ (∀ e ∈ (answer_with_optimization_stream st retrieveSim search genToks model_id
        user_question uc sm rpc).events,
      (isCacheGetEv e = true → e = Event.cacheGet user_question)
      ∧ (isCachePutEv e = true →
          e = Event.cachePut user_question
            (buildContext (if rpc then retrieveSim user_question 3 else [])
              (search user_question 3)))) := by
  constructor
  · intro e he
    unfold answer_with_optimization at he
    rcases huc : uc with _ | _ <;> rw [huc] at he
    · rcases gen with _ | response
      · simp at he
        subst he
        exact ⟨by simp [isCacheGetEv], by simp [isCachePutEv]⟩
      · rcases hsm : sm with _ | _ <;> rw [hsm] at he <;> simp at he <;>
          subst he <;> exact ⟨by simp [isCacheGetEv], by simp [isCachePutEv]⟩
    · rcases hget : st.prompt_cache.get_cached_response user_question with _ | entry <;>
        rw [hget] at he
      · rcases gen with _ | response
        · simp at he
          rcases he with he | he <;> subst he <;>
            exact ⟨by simp [isCacheGetEv], by simp [isCachePutEv]⟩
        · rcases hsm : sm with _ | _ <;> rw [hsm] at he <;> simp at he <;>
            (rcases he with he | he | he <;> subst he) <;>
            first
              | exact ⟨by simp [isCacheGetEv], by simp [isCachePutEv]⟩
              | exact ⟨fun h => by simp [isCacheGetEv] at h, fun _ => rfl⟩
      · simp at he
        subst he
        exact ⟨fun _ => rfl, by simp [isCachePutEv]⟩
  · intro e he
    unfold answer_with_optimization_stream at he
    rcases huc : uc with _ | _ <;> rw [huc] at he
    · rcases hsm : sm with _ | _ <;> rw [hsm] at he <;> simp at he <;>
        subst he <;> exact ⟨by simp [isCacheGetEv], by simp [isCachePutEv]⟩
    · rcases hget : st.prompt_cache.get_cached_response user_question with _ | entry <;>
        rw [hget] at he
      · rcases hsm : sm with _ | _ <;> rw [hsm] at he <;> simp at he <;>
          (rcases he with he | he | he <;> subst he) <;>
          first
            | exact ⟨by simp [isCacheGetEv], by simp [isCachePutEv]⟩
            | exact ⟨fun h => by simp [isCacheGetEv] at h, fun _ => rfl⟩
      · simp at he
        subst he
        exact ⟨fun _ => rfl, by simp [isCachePutEv]⟩

/-- C8 witness: the keying statement instantiated at a concrete run, with a
cache write observed. -/
theorem c8_cache_key_asymmetry_witness :
    Event.cachePut "q" (buildContext [] [("doc.txt", (1 : ℚ), "a b c d e")])
        ∈ (answer_with_optimization ⟨⟨[], []⟩, []⟩ (fun _ _ => [])
            (fun _ _ => [("doc.txt", 1, "a b c d e")]) (some "resp") "m" "q" true true
            true).2.2
    ∧ (∀ e ∈ (answer_with_optimization ⟨⟨[], []⟩, []⟩ (fun _ _ => [])
          (fun _ _ => [("doc.txt", 1, "a b c d e")]) (some "resp") "m" "q" true true
          true).2.2,
        (isCacheGetEv e = true → e = Event.cacheGet "q")
        ∧ (isCachePutEv e = true →
            e = Event.cachePut "q"
              (buildContext (if true then (fun (_ : String) (_ : Nat) =>
                  ([] : List MemoryRecord)) "q" 3 else [])
                ((fun (_ : String) (_ : Nat) =>
                  [("doc.txt", (1 : ℚ), "a b c d e")]) "q" 3)))) :=
  ⟨by decide,
    (c8_cache_key_asymmetry ⟨⟨[], []⟩, []⟩ (fun _ _ => [])
      (fun _ _ => [("doc.txt", 1, "a b c d e")]) (some "resp") [] "m" "q" true true
      true).1⟩

/-- C1 witness: the hit short-circuit applied at a concrete cached entry. -/
theorem c1_cache_hit_short_circuit_witness :
    (⟨⟨[(("q", ""), ⟨"hello world", "m", 7⟩)], []⟩, []⟩ : RAGState).prompt_cache.get_cached_response "q"
      = some ⟨"hello world", "m", 7⟩
    ∧ (answer_with_optimization ⟨⟨[(("q", ""), ⟨"hello world", "m", 7⟩)], []⟩, []⟩
          (fun _ _ => []) (fun _ _ => []) (some "generated") "m" "q" true true true
        = (⟨"hello world", ⟨true, false, 0, 7, ["prompt_cache"]⟩, true, false⟩,
           ⟨⟨[(("q", ""), ⟨"hello world", "m", 7⟩)], []⟩, []⟩, [Event.cacheGet "q"])
      ∧ answer_with_optimization_stream ⟨⟨[(("q", ""), ⟨"hello world", "m", 7⟩)], []⟩, []⟩
          (fun _ _ => []) (fun _ _ => []) ["tok"] "m" "q" true true true
        = ⟨(pysplit "hello world").map
            (fun tok => (tok ++ " ", ⟨true, false, 0, 7, ["prompt_cache"], true⟩)),
           ⟨true, false, 0, 7, ["prompt_cache"], true⟩,
           ⟨⟨[(("q", ""), ⟨"hello world", "m", 7⟩)], []⟩, []⟩, [Event.cacheGet "q"]⟩
      ∧ Event.generate
          ∉ (answer_with_optimization ⟨⟨[(("q", ""), ⟨"hello world", "m", 7⟩)], []⟩, []⟩
              (fun _ _ => []) (fun _ _ => []) (some "generated") "m" "q" true true
              true).2.2
      ∧ Event.generate
          ∉ (answer_with_optimization_stream ⟨⟨[(("q", ""), ⟨"hello world", "m", 7⟩)], []⟩, []⟩
              (fun _ _ => []) (fun _ _ => []) ["tok"] "m" "q" true true true).events
      ∧ concatS ((answer_with_optimization_stream
            ⟨⟨[(("q", ""), ⟨"hello world", "m", 7⟩)], []⟩, []⟩
            (fun _ _ => []) (fun _ _ => []) ["tok"] "m" "q" true true
            true).yields.map Prod.fst)
          = concatS ((pysplit "hello world").map (fun tok => tok ++ " "))) :=
  ⟨by decide,
    c1_cache_hit_short_circuit ⟨⟨[(("q", ""), ⟨"hello world", "m", 7⟩)], []⟩, []⟩
      (fun _ _ => []) (fun _ _ => []) (some "generated") ["tok"] "m" "q" true true
      ⟨"hello world", "m", 7⟩ (by decide)⟩
